import Mathlib

/-!
Verification of the GOST citation formatter (src/formatters/models.py and
src/formatters/styles/gost.py): the five bibliographic record models, the
per-kind template formatters, the class-name registry, and the batch
format-and-sort step, embedded shallowly as Lean functions.
-/

namespace Biblio

/-- Embeds `formatters.models.BookModel`: the pydantic DTO for a book.
`year` and `pages` are Python ints constrained `gt=0` by the validator. -/
structure BookModel where
  authors : String
  title : String
  edition : Option String
  city : String
  publishing_house : String
  year : Int
  pages : Int
deriving DecidableEq

/-- The pydantic validation constraints of `BookModel` (`Field(..., gt=0)`). -/
def BookModel.valid (d : BookModel) : Prop := 0 < d.year ∧ 0 < d.pages

/-- Embeds `formatters.models.InternetResourceModel`. -/
structure InternetResourceModel where
  article : String
  website : String
  link : String
  access_date : String
deriving DecidableEq

/-- Embeds `formatters.models.ArticlesCollectionModel`; `pages` is a string range. -/
structure ArticlesCollectionModel where
  authors : String
  article_title : String
  collection_title : String
  city : String
  publishing_house : String
  year : Int
  pages : String
deriving DecidableEq

/-- The pydantic validation constraint of `ArticlesCollectionModel`. -/
def ArticlesCollectionModel.valid (d : ArticlesCollectionModel) : Prop := 0 < d.year

/-- Embeds `formatters.models.JournalArticleModel`; `pages` is a string range. -/
structure JournalArticleModel where
  authors : String
  article_title : String
  journal_title : String
  year : Int
  release : Int
  pages : String
deriving DecidableEq

/-- The pydantic validation constraints of `JournalArticleModel`. -/
def JournalArticleModel.valid (d : JournalArticleModel) : Prop := 0 < d.year ∧ 0 < d.release

/-- Embeds `formatters.models.DissertationModel`. -/
structure DissertationModel where
  author : String
  title : String
  degree : String
  speciality : String
  code : String
  city : String
  year : Int
  pages : Int
deriving DecidableEq

/-- The pydantic validation constraints of `DissertationModel`. -/
def DissertationModel.valid (d : DissertationModel) : Prop := 0 < d.year ∧ 0 < d.pages

/-- A record handed to `GOSTCitationFormatter`: one of the five DTO kinds, or
(`other`) an instance of some other model class, carrying only that class name —
the case the registry cannot dispatch. -/
inductive CitationModel where
  | book (d : BookModel)
  | internetResource (d : InternetResourceModel)
  | articlesCollection (d : ArticlesCollectionModel)
  | journalArticle (d : JournalArticleModel)
  | dissertation (d : DissertationModel)
  | other (className : String)
deriving DecidableEq

/-- Embeds Python `type(model).__name__` for the records above. -/
def CitationModel.typeName : CitationModel → String
  | .book _ => "BookModel"
  | .internetResource _ => "InternetResourceModel"
  | .articlesCollection _ => "ArticlesCollectionModel"
  | .journalArticle _ => "JournalArticleModel"
  | .dissertation _ => "DissertationModel"
  | .other className => className

/-- One piece of a `string.Template` pattern: literal text, or a `$name`
placeholder to be substituted. -/
inductive TemplatePart where
  | lit (s : String)
  | hole (name : String)
deriving DecidableEq

/-- Embeds the `KeyError` that `string.Template.substitute` raises when a
placeholder has no mapping entry: the defensive `FormattingError` of the spec. -/
inductive FormattingError where
  | missingPlaceholder (name : String)
deriving DecidableEq

/-- Embeds `string.Template.substitute`: replace every placeholder by its value
from the keyword mapping, failing on a placeholder absent from the mapping. -/
def substituteTemplate : List TemplatePart → List (String × String) → Except FormattingError String
  | [], _ => .ok ""
  | .lit s :: rest, env => (substituteTemplate rest env).map (fun t => s ++ t)
  | .hole n :: rest, env =>
    match env.lookup n with
    | none => .error (.missingPlaceholder n)
    | some v => (substituteTemplate rest env).map (fun t => v ++ t)

namespace GOSTBook

/-- The template of `GOSTBook`:
`"$authors $title. – $edition$city: $publishing_house, $year. – $pages с."`. -/
def templateParts : List TemplatePart :=
  [.hole "authors", .lit " ", .hole "title", .lit ". – ", .hole "edition",
   .hole "city", .lit ": ", .hole "publishing_house", .lit ", ", .hole "year",
   .lit ". – ", .hole "pages", .lit " с."]

/-- Embeds `GOSTBook.get_edition`: the edition clause, empty when the optional
`edition` field is falsy in Python (absent or the empty string). -/
def get_edition (d : BookModel) : String :=
  match d.edition with
  | some e => if e = "" then "" else e ++ " изд. – "
  | none => ""

/-- Embeds `GOSTBook.substitute` (its returned string; the log entry is modelled
separately): template substitution with the keyword arguments of the source. -/
def substitute (d : BookModel) : Except FormattingError String :=
  substituteTemplate templateParts
    [("authors", d.authors), ("title", d.title), ("edition", get_edition d),
     ("city", d.city), ("publishing_house", d.publishing_house),
     ("year", toString d.year), ("pages", toString d.pages)]

end GOSTBook

namespace GOSTInternetResource

/-- The template of `GOSTInternetResource`:
`"$article // $website URL: $link (дата обращения: $access_date)."`. -/
def templateParts : List TemplatePart :=
  [.hole "article", .lit " // ", .hole "website", .lit " URL: ", .hole "link",
   .lit " (дата обращения: ", .hole "access_date", .lit ")."]

/-- Embeds `GOSTInternetResource.substitute` (its returned string). -/
def substitute (d : InternetResourceModel) : Except FormattingError String :=
  substituteTemplate templateParts
    [("article", d.article), ("website", d.website), ("link", d.link),
     ("access_date", d.access_date)]

end GOSTInternetResource

namespace GOSTCollectionArticle

/-- The template of `GOSTCollectionArticle`:
`"$authors $article_title // $collection_title. – $city: $publishing_house, $year. – С. $pages."`. -/
def templateParts : List TemplatePart :=
  [.hole "authors", .lit " ", .hole "article_title", .lit " // ",
   .hole "collection_title", .lit ". – ", .hole "city", .lit ": ",
   .hole "publishing_house", .lit ", ", .hole "year", .lit ". – С. ",
   .hole "pages", .lit "."]

/-- Embeds `GOSTCollectionArticle.substitute` (its returned string). -/
def substitute (d : ArticlesCollectionModel) : Except FormattingError String :=
  substituteTemplate templateParts
    [("authors", d.authors), ("article_title", d.article_title),
     ("collection_title", d.collection_title), ("city", d.city),
     ("publishing_house", d.publishing_house), ("year", toString d.year),
     ("pages", d.pages)]

end GOSTCollectionArticle

/-- Embeds Python `str.split(sep)` for a one-character separator, acting on the
character list: the list of separator-delimited groups, empty groups kept. -/
def pySplit (sep : Char) : List Char → List (List Char)
  | [] => [[]]
  | c :: cs =>
    if c = sep then [] :: pySplit sep cs
    else
      match pySplit sep cs with
      | [] => [[c]]
      | g :: gs => (c :: g) :: gs

namespace GOSTJournalArticle

/-- The template of `GOSTJournalArticle`:
`"$author $article_title / $authors // $journal_title. – $year. – № $release. – С. $pages."`. -/
def templateParts : List TemplatePart :=
  [.hole "author", .lit " ", .hole "article_title", .lit " / ", .hole "authors",
   .lit " // ", .hole "journal_title", .lit ". – ", .hole "year",
   .lit ". – № ", .hole "release", .lit ". – С. ", .hole "pages", .lit "."]

/-- Embeds `GOSTJournalArticle.get_author`:
`self.data.authors.split(",")[0] if "," in self.data.authors else self.data.authors`. -/
def get_author (d : JournalArticleModel) : String :=
  if d.authors.toList.contains ',' then
    String.mk ((pySplit ',' d.authors.toList).headD [])
  else d.authors

/-- Embeds `GOSTJournalArticle.substitute` (its returned string). -/
def substitute (d : JournalArticleModel) : Except FormattingError String :=
  substituteTemplate templateParts
    [("author", get_author d), ("authors", d.authors),
     ("article_title", d.article_title), ("journal_title", d.journal_title),
     ("year", toString d.year), ("release", toString d.release),
     ("pages", d.pages)]

end GOSTJournalArticle

namespace GOSTDissertation

/-- The template of `GOSTDissertation`:
`"$author $title: $degree $speciality наук: $code / $author – $city, $year. – $pages с."`. -/
def templateParts : List TemplatePart :=
  [.hole "author", .lit " ", .hole "title", .lit ": ", .hole "degree", .lit " ",
   .hole "speciality", .lit " наук: ", .hole "code", .lit " / ", .hole "author",
   .lit " – ", .hole "city", .lit ", ", .hole "year", .lit ". – ",
   .hole "pages", .lit " с."]

/-- Embeds `GOSTDissertation.substitute` (its returned string). -/
def substitute (d : DissertationModel) : Except FormattingError String :=
  substituteTemplate templateParts
    [("author", d.author), ("title", d.title), ("degree", d.degree),
     ("speciality", d.speciality), ("code", d.code), ("city", d.city),
     ("year", toString d.year), ("pages", toString d.pages)]

end GOSTDissertation

/-- A constructed per-record formatter object: `GOSTBook(model)` and friends,
each wrapping the record it will format. -/
inductive GOSTFormatter where
  | book (d : BookModel)
  | internetResource (d : InternetResourceModel)
  | collectionArticle (d : ArticlesCollectionModel)
  | journalArticle (d : JournalArticleModel)
  | dissertation (d : DissertationModel)
deriving DecidableEq

/-- Modelled from the spec: `BaseCitationStyle.formatted` lives in
`formatters/styles/base.py`, which is absent from the sources; per the spec the
formatter output is "a single formatted string" produced by the variant
substitution, so `formatted` is embedded as the `substitute` result of the
wrapped record. -/
def GOSTFormatter.formatted : GOSTFormatter → Except FormattingError String
  | .book d => GOSTBook.substitute d
  | .internetResource d => GOSTInternetResource.substitute d
  | .collectionArticle d => GOSTCollectionArticle.substitute d
  | .journalArticle d => GOSTJournalArticle.substitute d
  | .dissertation d => GOSTDissertation.substitute d

/-- The diagnostic `logger.info` message each variant of `substitute` emits
before substituting (`%s` filled with the named field of the record). -/
def GOSTFormatter.logMessage : GOSTFormatter → String
  | .book d => "Форматирование книги \"" ++ d.title ++ "\" ..."
  | .internetResource d => "Форматирование интернет-ресурса \"" ++ d.article ++ "\" ..."
  | .collectionArticle d => "Форматирование сборника статей \"" ++ d.article_title ++ "\" ..."
  | .journalArticle d => "Форматирование статьи из журнала \"" ++ d.article_title ++ "\" ..."
  | .dissertation d => "Форматирование диссертации \"" ++ d.title ++ "\" ..."

/-- Embeds `substitute` together with its only side effect: the diagnostic log,
threaded explicitly as the list of messages emitted so far. -/
def GOSTFormatter.substituteLog (f : GOSTFormatter) (log : List String) :
    List String × Except FormattingError String :=
  (log ++ [f.logMessage], f.formatted)

/-- The sort key `item.formatted` as a plain string. The `error` branch is dead
code: substitution never fails (theorem `substitute_never_fails`). -/
def GOSTFormatter.key (f : GOSTFormatter) : String :=
  match f.formatted with
  | .ok s => s
  | .error _ => ""

/-- The registered formatter kinds, one per entry of `formatters_map`. -/
inductive FormatterKind where
  | book
  | internetResource
  | collectionArticle
  | journalArticle
  | dissertation
deriving DecidableEq

/-- Embeds `GOSTCitationFormatter.formatters_map`: class name of the model to
the formatter class registered for it. -/
def formatters_map : List (String × FormatterKind) :=
  [("BookModel", .book), ("InternetResourceModel", .internetResource),
   ("ArticlesCollectionModel", .collectionArticle),
   ("JournalArticleModel", .journalArticle),
   ("DissertationModel", .dissertation)]

/-- The ways constructing the batch formatter can fail: an unregistered record
kind (the `None` lookup of the source, `UnsupportedRecordKind` of the spec), or
a model whose class name collides with a registered name without being that
class — modelled from the spec (§7 ValidationError): pydantic construction of
the formatter, in the absent `base.py`, rejects a foreign object. -/
inductive BatchError where
  | unsupportedKind (typeName : String)
  | validationFailure (typeName : String)
deriving DecidableEq

/-- Embeds applying the registered formatter class to the model, `cls(model)`:
succeeds exactly when the model is an instance of the class the name denotes. -/
def constructFormatter : FormatterKind → CitationModel → Option GOSTFormatter
  | .book, .book d => some (.book d)
  | .internetResource, .internetResource d => some (.internetResource d)
  | .collectionArticle, .articlesCollection d => some (.collectionArticle d)
  | .journalArticle, .journalArticle d => some (.journalArticle d)
  | .dissertation, .dissertation d => some (.dissertation d)
  | _, _ => none

/-- Embeds one step of the `__init__` loop of `GOSTCitationFormatter`:
`self.formatters_map.get(type(model).__name__)(model)` — registry lookup by the
class name of the record, then construction of the formatter object. -/
def GOSTCitationFormatter.resolve (m : CitationModel) : Except BatchError GOSTFormatter :=
  match formatters_map.lookup m.typeName with
  | none => .error (.unsupportedKind m.typeName)
  | some k =>
    match constructFormatter k m with
    | none => .error (.validationFailure m.typeName)
    | some f => .ok f

/-- Embeds `GOSTCitationFormatter.__init__`: build the formatter object of every
record in input order; the first failure aborts the whole pass, discarding the
objects already built. -/
def GOSTCitationFormatter.init : List CitationModel → Except BatchError (List GOSTFormatter)
  | [] => .ok []
  | m :: rest =>
    match GOSTCitationFormatter.resolve m with
    | .error e => .error e
    | .ok f => (GOSTCitationFormatter.init rest).map (fun fs => f :: fs)

/-- The comparison `sorted` uses: the formatted strings of the two items ordered
by the code-point lexicographic order of `String`. -/
def keyLE (a b : GOSTFormatter) : Bool := decide (a.key ≤ b.key)

/-- Embeds `GOSTCitationFormatter.format`:
`sorted(self.formatted_items, key=lambda item: item.formatted)` — a stable sort
of the constructed items by formatted string. -/
def GOSTCitationFormatter.format (items : List GOSTFormatter) : List GOSTFormatter :=
  items.mergeSort keyLE

/-- The whole batch pass: construct all formatter objects, then the sorted list
of their formatted strings. -/
def GOSTCitationFormatter.formatBatch (models : List CitationModel) :
    Except BatchError (List String) :=
  (GOSTCitationFormatter.init models).map
    (fun items => (GOSTCitationFormatter.format items).map GOSTFormatter.key)

/-- A record is genuine when its class name does not lie about its kind: an
`other` record (a model class outside the five DTOs) does not reuse a
registered class name. Validated inputs of the spec are all genuine. -/
def CitationModel.genuine : CitationModel → Bool
  | .other className => formatters_map.lookup className == none
  | _ => true

/-- The substring of a string strictly before its first comma — the string
itself when it has no comma. This is the wording of the spec for the derived
first author; it is compared with the source `get_author` in the claims. -/
def beforeFirstComma (s : String) : String :=
  String.mk (s.toList.takeWhile (fun c => c != ','))

/-- Substring containment, computably: some suffix of the string starts with
the pattern. -/
def strContains (s pat : String) : Bool :=
  s.toList.tails.any (fun t => pat.toList.isPrefixOf t)

/-- The example book of the spec. -/
def exBook : BookModel :=
  { authors := "Иванов И.М., Петров С.Н.", title := "Наука как искусство",
    edition := some "3-е", city := "СПб.", publishing_house := "Просвещение",
    year := 2020, pages := 999 }

/-- The example book of the spec with the optional edition unset. -/
def exBookNoEdition : BookModel := { exBook with edition := none }

/-- A valid book with edition unset whose own title contains "изд.". -/
def exBookTitleIzd : BookModel :=
  { exBook with edition := none, title := "Наука изд. и ремесло" }

/-- The example journal article of the spec. -/
def exJournal : JournalArticleModel :=
  { authors := "Иванов И.М., Петров С.Н.", article_title := "Наука как искусство",
    journal_title := "Образование и наука", year := 2020, release := 10, pages := "25-30" }

/-- The example journal article with a single author and hence no comma. -/
def exJournalSolo : JournalArticleModel := { exJournal with authors := "Иванов И.М." }

/-- The citation string of one record formatted individually: registry lookup
followed by substitution. The empty-string branch is unreachable whenever the
batch pass succeeds (its hypotheses in the claims below guarantee resolution). -/
def modelKey (m : CitationModel) : String :=
  match GOSTCitationFormatter.resolve m with
  | .ok f => f.key
  | .error _ => ""

/-- A two-record example batch. -/
def exModels : List CitationModel := [.book exBook, .journalArticle exJournal]

/-- The example batch with its two records swapped. -/
def exModelsPerm : List CitationModel := [.journalArticle exJournal, .book exBook]

/-- The formatter objects `__init__` builds for `exModels`. -/
def exItems : List GOSTFormatter := [.book exBook, .journalArticle exJournal]

/-- A batch containing a record of an unregistered model class. -/
def exModelsBad : List CitationModel := [.book exBook, .other "MagazineModel"]

/-! Unfolding lemmas: each variant substitution evaluated on its concrete
template, shared by the claim theorems below. -/

/-- `GOSTBook.substitute` written out as the concatenation its template produces. -/
theorem book_substitute_eq (d : BookModel) :
    GOSTBook.substitute d =
      .ok (d.authors ++ " " ++ d.title ++ ". – " ++ GOSTBook.get_edition d ++ d.city ++ ": " ++
        d.publishing_house ++ ", " ++ toString d.year ++ ". – " ++ toString d.pages ++ " с.") := by
  simp [GOSTBook.substitute, GOSTBook.templateParts, substituteTemplate, List.lookup,
    Except.map, String.append_assoc]

/-- `GOSTInternetResource.substitute` written out as the concatenation its template produces. -/
theorem internetResource_substitute_eq (d : InternetResourceModel) :
    GOSTInternetResource.substitute d =
      .ok (d.article ++ " // " ++ d.website ++ " URL: " ++ d.link ++ " (дата обращения: " ++
        d.access_date ++ ").") := by
  simp [GOSTInternetResource.substitute, GOSTInternetResource.templateParts, substituteTemplate,
    List.lookup, Except.map, String.append_assoc]

/-- `GOSTCollectionArticle.substitute` written out as the concatenation its template produces. -/
theorem collectionArticle_substitute_eq (d : ArticlesCollectionModel) :
    GOSTCollectionArticle.substitute d =
      .ok (d.authors ++ " " ++ d.article_title ++ " // " ++ d.collection_title ++ ". – " ++
        d.city ++ ": " ++ d.publishing_house ++ ", " ++ toString d.year ++ ". – С. " ++
        d.pages ++ ".") := by
  simp [GOSTCollectionArticle.substitute, GOSTCollectionArticle.templateParts, substituteTemplate,
    List.lookup, Except.map, String.append_assoc]

/-- `GOSTJournalArticle.substitute` written out as the concatenation its template produces. -/
theorem journalArticle_substitute_eq (d : JournalArticleModel) :
    GOSTJournalArticle.substitute d =
      .ok (GOSTJournalArticle.get_author d ++ " " ++ d.article_title ++ " / " ++ d.authors ++
        " // " ++ d.journal_title ++ ". – " ++ toString d.year ++ ". – № " ++
        toString d.release ++ ". – С. " ++ d.pages ++ ".") := by
  simp [GOSTJournalArticle.substitute, GOSTJournalArticle.templateParts, substituteTemplate,
    List.lookup, Except.map, String.append_assoc]

/-- `GOSTDissertation.substitute` written out as the concatenation its template produces. -/
theorem dissertation_substitute_eq (d : DissertationModel) :
    GOSTDissertation.substitute d =
      .ok (d.author ++ " " ++ d.title ++ ": " ++ d.degree ++ " " ++ d.speciality ++ " наук: " ++
        d.code ++ " / " ++ d.author ++ " – " ++ d.city ++ ", " ++ toString d.year ++ ". – " ++
        toString d.pages ++ " с.") := by
  simp [GOSTDissertation.substitute, GOSTDissertation.templateParts, substituteTemplate,
    List.lookup, Except.map, String.append_assoc]

/-- Every formatter succeeds on its record: the `FormattingError` branch of
template substitution is unreachable for the five registered variants. -/
theorem GOSTFormatter.formatted_isOk (f : GOSTFormatter) :
    ∃ s, f.formatted = Except.ok s := by
  cases f with
  | book d => exact ⟨_, book_substitute_eq d⟩
  | internetResource d => exact ⟨_, internetResource_substitute_eq d⟩
  | collectionArticle d => exact ⟨_, collectionArticle_substitute_eq d⟩
  | journalArticle d => exact ⟨_, journalArticle_substitute_eq d⟩
  | dissertation d => exact ⟨_, dissertation_substitute_eq d⟩

/-- The sort key is the successful substitution result. -/
theorem GOSTFormatter.key_eq_of_formatted {f : GOSTFormatter} {s : String}
    (h : f.formatted = Except.ok s) : f.key = s := by
  simp [GOSTFormatter.key, h]

/-- C9: For every validated record of each of the five kinds, the matching
formatter's substitute operation succeeds: every placeholder named in that
formatter's template is supplied a value, so the FormattingError branch (a
required template placeholder with no corresponding field) is unreachable. -/
theorem substitute_never_fails (f : GOSTFormatter) :
    ∃ s, f.formatted = Except.ok s ∧ ∀ e, f.formatted ≠ Except.error e := by
  obtain ⟨s, hs⟩ := GOSTFormatter.formatted_isOk f
  exact ⟨s, hs, fun e he => by rw [hs] at he; exact Except.noConfusion he⟩

/-- C8: Formatting is deterministic: for every validated record of any of the
five kinds, invoking the matching formatter's substitute operation twice on the
same record yields byte-identical output strings, and the diagnostic log entry
has no effect on the result. -/
theorem substitute_deterministic (f : GOSTFormatter) (log : List String) :
    (f.substituteLog ((f.substituteLog log).1)).2 = (f.substituteLog log).2 ∧
    ∀ log₁ log₂ : List String, (f.substituteLog log₁).2 = (f.substituteLog log₂).2 := by
  exact ⟨rfl, fun _ _ => rfl⟩

/-- C6: For every Dissertation record, the formatted output follows the
dissertation template with the author field substituted verbatim at both
`$author` positions (the same value in both places) and all other fields
substituted verbatim. -/
theorem dissertation_template_author_twice (d : DissertationModel) :
    GOSTDissertation.substitute d =
      .ok (d.author ++ " " ++ d.title ++ ": " ++ d.degree ++ " " ++ d.speciality ++ " наук: " ++
        d.code ++ " / " ++ d.author ++ " – " ++ d.city ++ ", " ++ toString d.year ++ ". – " ++
        toString d.pages ++ " с.") :=
  dissertation_substitute_eq d

/-- `pySplit` never produces an empty group list. -/
theorem pySplit_ne_nil (sep : Char) : ∀ l : List Char, pySplit sep l ≠ []
  | [] => by simp [pySplit]
  | c :: cs => by
    by_cases h : c = sep
    · simp [pySplit, h]
    · simp only [pySplit, if_neg h]
      cases hps : pySplit sep cs with
      | nil => simp
      | cons g gs => simp

/-- The first group of `pySplit` is the prefix strictly before the first
separator: Python `s.split(sep)[0]` agrees with `takeWhile`. -/
theorem pySplit_headD_takeWhile (sep : Char) : ∀ l : List Char,
    (pySplit sep l).headD [] = l.takeWhile (fun c => c != sep)
  | [] => rfl
  | c :: cs => by
    by_cases h : c = sep
    · simp [pySplit, h, List.takeWhile_cons]
    · have ih := pySplit_headD_takeWhile sep cs
      have hne := pySplit_ne_nil sep cs
      simp only [pySplit, if_neg h, List.takeWhile_cons]
      cases hps : pySplit sep cs with
      | nil => exact absurd hps hne
      | cons g gs =>
        rw [hps] at ih
        simp only [List.headD_cons] at ih
        simp [h, ih]

/-- C3: For every JournalArticle record, the derived `$author` value
substituted at the front of the journal-article template equals the substring
of the authors field strictly before the first comma when the authors field
contains a comma, and equals the entire authors field verbatim when it contains
no comma. -/
theorem journal_get_author_spec (d : JournalArticleModel) :
    (d.authors.toList.contains ',' = true →
      GOSTJournalArticle.get_author d = beforeFirstComma d.authors) ∧
    (d.authors.toList.contains ',' = false →
      GOSTJournalArticle.get_author d = d.authors) ∧
    ∃ rest, GOSTJournalArticle.substitute d =
      .ok (GOSTJournalArticle.get_author d ++ (" " ++ rest)) := by
  refine ⟨fun h => ?_, fun h => ?_, ?_⟩
  · have h' : ',' ∈ d.authors.data := by simpa [String.toList] using h
    have key := pySplit_headD_takeWhile ',' d.authors.toList
    simp only [List.headD_eq_head?_getD, String.toList] at key
    simp [GOSTJournalArticle.get_author, String.toList, h', beforeFirstComma, key]
  · have h' : ¬ (',' ∈ d.authors.data) := by simpa [String.toList] using h
    simp [GOSTJournalArticle.get_author, String.toList, h']
  · refine ⟨d.article_title ++ " / " ++ d.authors ++ " // " ++ d.journal_title ++ ". – " ++
      toString d.year ++ ". – № " ++ toString d.release ++ ". – С. " ++ d.pages ++ ".", ?_⟩
    rw [journalArticle_substitute_eq]
    simp [String.append_assoc]

/-- Witness for C3 at the spec examples: two listed authors give the part
before the comma, a single author is returned verbatim. -/
theorem journal_get_author_spec_witness :
    GOSTJournalArticle.get_author exJournal = "Иванов И.М." ∧
    GOSTJournalArticle.get_author exJournalSolo = "Иванов И.М." := by
  constructor
  · rw [(journal_get_author_spec exJournal).1 (by decide)]
    decide
  · rw [(journal_get_author_spec exJournalSolo).2.1 (by decide)]
    rfl

/-- If a string decomposes as prefix ++ pattern ++ suffix then `strContains`
finds the pattern. -/
theorem strContains_of_append (pre pat post s : String) (h : s = pre ++ pat ++ post) :
    strContains s pat = true := by
  subst h
  simp only [strContains, List.any_eq_true]
  refine ⟨pat.toList ++ post.toList, ?_, ?_⟩
  · rw [List.mem_tails]
    have hsplit : (pre ++ pat ++ post).toList = pre.toList ++ (pat.toList ++ post.toList) := by
      simp [String.toList]
    rw [hsplit]
    exact List.suffix_append _ _
  · rw [List.isPrefixOf_iff_prefix]
    exact List.prefix_append _ _

/-- C5: For every valid Book record with edition set to "3-е" the formatted
output contains the exact substring "3-е изд. – "; the spec example book
formats to exactly the spec string. -/
theorem book_edition_clause (d : BookModel) (_hv : d.valid) (he : d.edition = some "3-е") :
    (∃ s, GOSTBook.substitute d = Except.ok s ∧ strContains s "3-е изд. – " = true) ∧
    GOSTBook.substitute exBook =
      Except.ok "Иванов И.М., Петров С.Н. Наука как искусство. – 3-е изд. – СПб.: Просвещение, 2020. – 999 с." := by
  constructor
  · refine ⟨_, book_substitute_eq d, ?_⟩
    have hed : GOSTBook.get_edition d = "3-е изд. – " := by
      simp [GOSTBook.get_edition, he]
    apply strContains_of_append (d.authors ++ " " ++ d.title ++ ". – ")
      "3-е изд. – "
      (d.city ++ ": " ++ d.publishing_house ++ ", " ++ toString d.year ++ ". – " ++
        toString d.pages ++ " с.")
    rw [hed]
    simp [String.append_assoc]
  · rw [book_substitute_eq]
    rfl

/-- Witness for C5: the spec example book satisfies the hypotheses and formats
to the spec string. -/
theorem book_edition_clause_witness :
    GOSTBook.substitute exBook =
      Except.ok "Иванов И.М., Петров С.Н. Наука как искусство. – 3-е изд. – СПб.: Просвещение, 2020. – 999 с." :=
  (book_edition_clause exBook (by constructor <;> decide) rfl).2

/-- C4 counterexample: a valid Book record with edition unset whose formatted
output nevertheless contains "изд." — the title itself carries it — refuting
the claim that no such output ever contains "изд.". -/
theorem book_no_edition_counterexample :
    exBookTitleIzd.valid ∧ exBookTitleIzd.edition = none ∧
    GOSTBook.substitute exBookTitleIzd =
      Except.ok "Иванов И.М., Петров С.Н. Наука изд. и ремесло. – СПб.: Просвещение, 2020. – 999 с." ∧
    strContains "Иванов И.М., Петров С.Н. Наука изд. и ремесло. – СПб.: Просвещение, 2020. – 999 с."
      "изд." = true :=
  ⟨⟨by decide, by decide⟩, rfl, rfl, by decide⟩

/-- C4 (amended): for every valid Book record with edition unset, the edition
clause expands to the empty string and the output is exactly the template with
that clause erased — no "изд." text and no extra punctuation is inserted by the
template; in particular the spec example book with edition unset (whose fields
carry no "изд." and no double space) formats without "изд." and without double
spaces. -/
theorem book_no_edition_clause (d : BookModel) (_hv : d.valid) (he : d.edition = none) :
    GOSTBook.get_edition d = "" ∧
    GOSTBook.substitute d =
      .ok (d.authors ++ " " ++ d.title ++ ". – " ++ d.city ++ ": " ++ d.publishing_house ++
        ", " ++ toString d.year ++ ". – " ++ toString d.pages ++ " с.") ∧
    GOSTBook.substitute exBookNoEdition =
      Except.ok "Иванов И.М., Петров С.Н. Наука как искусство. – СПб.: Просвещение, 2020. – 999 с." ∧
    strContains "Иванов И.М., Петров С.Н. Наука как искусство. – СПб.: Просвещение, 2020. – 999 с."
      "изд." = false ∧
    strContains "Иванов И.М., Петров С.Н. Наука как искусство. – СПб.: Просвещение, 2020. – 999 с."
      "  " = false := by
  have hed : GOSTBook.get_edition d = "" := by simp [GOSTBook.get_edition, he]
  refine ⟨hed, ?_, rfl, by decide, by decide⟩
  rw [book_substitute_eq, hed]
  simp [String.append_assoc]

/-- Witness for C4 (amended) at the spec example book with edition unset. -/
theorem book_no_edition_clause_witness :
    GOSTBook.get_edition exBookNoEdition = "" :=
  (book_no_edition_clause exBookNoEdition (by constructor <;> decide) rfl).1

/-! Lemmas about the batch pass: the comparison is a total preorder, a
successful `__init__` resolves every record, and the output multiset. -/

/-- The sort comparison is transitive. -/
theorem keyLE_trans : ∀ a b c : GOSTFormatter, keyLE a b → keyLE b c → keyLE a c := by
  intro a b c hab hbc
  simp only [keyLE, decide_eq_true_eq] at hab hbc ⊢
  exact le_trans hab hbc

/-- The sort comparison is total. -/
theorem keyLE_total : ∀ a b : GOSTFormatter, keyLE a b || keyLE b a := by
  intro a b
  simp only [keyLE, Bool.or_eq_true, decide_eq_true_eq]
  exact le_total _ _

/-- A successful `__init__` resolves the records elementwise, in order. -/
theorem init_ok_forall₂ : ∀ {models : List CitationModel} {items : List GOSTFormatter},
    GOSTCitationFormatter.init models = .ok items →
    List.Forall₂ (fun m f => GOSTCitationFormatter.resolve m = .ok f) models items
  | [], items, h => by
    simp only [GOSTCitationFormatter.init] at h
    cases h
    exact List.Forall₂.nil
  | m :: rest, items, h => by
    simp only [GOSTCitationFormatter.init] at h
    cases hr : GOSTCitationFormatter.resolve m with
    | error e => rw [hr] at h; cases h
    | ok f =>
      rw [hr] at h
      cases hi : GOSTCitationFormatter.init rest with
      | error e => rw [hi] at h; cases h
      | ok fs =>
        rw [hi] at h
        cases h
        exact List.Forall₂.cons hr (init_ok_forall₂ hi)

/-- The keys of the constructed items are the records formatted individually. -/
theorem map_key_eq_of_forall₂ : ∀ {models : List CitationModel} {items : List GOSTFormatter},
    List.Forall₂ (fun m f => GOSTCitationFormatter.resolve m = .ok f) models items →
    items.map GOSTFormatter.key = models.map modelKey
  | _, _, List.Forall₂.nil => rfl
  | _, _, List.Forall₂.cons h hs => by
    simp only [List.map_cons, modelKey, h, map_key_eq_of_forall₂ hs]

/-- A successful batch pass decomposes into a successful `__init__` and the
sorted key list. -/
theorem formatBatch_ok_elim {models : List CitationModel} {out : List String}
    (h : GOSTCitationFormatter.formatBatch models = .ok out) :
    ∃ items, GOSTCitationFormatter.init models = .ok items ∧
      out = (GOSTCitationFormatter.format items).map GOSTFormatter.key := by
  cases hi : GOSTCitationFormatter.init models with
  | error e =>
    rw [GOSTCitationFormatter.formatBatch, hi] at h
    cases h
  | ok items =>
    rw [GOSTCitationFormatter.formatBatch, hi] at h
    cases h
    exact ⟨items, rfl, rfl⟩

/-- The sorted key list is a permutation of the individually formatted records. -/
theorem format_map_key_perm {models : List CitationModel} {items : List GOSTFormatter}
    (h : GOSTCitationFormatter.init models = .ok items) :
    ((GOSTCitationFormatter.format items).map GOSTFormatter.key).Perm (models.map modelKey) := by
  have h1 : (GOSTCitationFormatter.format items).Perm items := List.mergeSort_perm items keyLE
  have h2 := h1.map GOSTFormatter.key
  rwa [map_key_eq_of_forall₂ (init_ok_forall₂ h)] at h2

/-- The sorted key list is sorted under the code-point order on strings. -/
theorem format_map_key_sorted (items : List GOSTFormatter) :
    ((GOSTCitationFormatter.format items).map GOSTFormatter.key).Pairwise (· ≤ ·) := by
  have hs := List.sorted_mergeSort keyLE_trans keyLE_total items
  exact List.Pairwise.map _ (fun {a b} hab => by simpa [keyLE] using hab) hs

/-- C1: For every list of validated records whose kinds all have registered
formatters, the Citation List Formatter's format operation returns the
formatted citations sorted by the formatted string in ascending lexicographic
(code-point) order, and the sort is stable: two items with equal formatted
strings keep their original relative input order in the output. -/
theorem format_sorted_and_stable (models : List CitationModel) (items : List GOSTFormatter)
    (h : GOSTCitationFormatter.init models = .ok items) :
    (GOSTCitationFormatter.format items).Pairwise (fun a b => a.key ≤ b.key) ∧
    ∀ c : String, (GOSTCitationFormatter.format items).filter (fun f => f.key == c) =
      items.filter (fun f => f.key == c) := by
  constructor
  · exact List.Pairwise.imp (fun {a b} hab => by simpa [keyLE] using hab)
      (List.sorted_mergeSort keyLE_trans keyLE_total items)
  · intro c
    have hkey : ∀ f ∈ items.filter (fun f => f.key == c), f.key = c := by
      intro f hf
      exact eq_of_beq (List.mem_filter.mp hf).2
    have hpw : (items.filter (fun f => f.key == c)).Pairwise
        (fun a b => keyLE a b = true) := by
      apply List.pairwise_of_forall_mem_list
      intro a ha b hb
      simp only [keyLE, decide_eq_true_eq, hkey a ha, hkey b hb, le_refl]
    have hsub := List.sublist_mergeSort keyLE_trans keyLE_total hpw
      (List.filter_sublist items)
    have hsub2 := hsub.filter (fun f => f.key == c)
    rw [List.filter_filter] at hsub2
    have hself : (items.filter (fun f => (f.key == c) && (f.key == c))) =
        items.filter (fun f => f.key == c) := by
      simp
    rw [hself] at hsub2
    have hperm := (List.mergeSort_perm items keyLE).filter (fun f => f.key == c)
    exact (hsub2.eq_of_length hperm.length_eq.symm).symm

/-- Witness for C1 at the two-record example batch. -/
theorem format_sorted_and_stable_witness :
    (GOSTCitationFormatter.format exItems).Pairwise (fun a b => a.key ≤ b.key) ∧
    (GOSTCitationFormatter.format exItems).filter (fun f => f.key == "x") =
      exItems.filter (fun f => f.key == "x") :=
  ⟨(format_sorted_and_stable exModels exItems rfl).1,
   (format_sorted_and_stable exModels exItems rfl).2 "x"⟩

/-- A genuine record either has an unregistered class name — and then resolves
to exactly the UnsupportedRecordKind error — or resolves successfully. -/
theorem resolve_of_genuine (m : CitationModel) (hg : m.genuine = true) :
    (formatters_map.lookup m.typeName = none ∧
      GOSTCitationFormatter.resolve m = .error (.unsupportedKind m.typeName)) ∨
    ∃ f, GOSTCitationFormatter.resolve m = .ok f := by
  cases m with
  | book d => exact .inr ⟨.book d, rfl⟩
  | internetResource d => exact .inr ⟨.internetResource d, rfl⟩
  | articlesCollection d => exact .inr ⟨.collectionArticle d, rfl⟩
  | journalArticle d => exact .inr ⟨.journalArticle d, rfl⟩
  | dissertation d => exact .inr ⟨.dissertation d, rfl⟩
  | other className =>
    have hnone : formatters_map.lookup className = none := by
      simpa [CitationModel.genuine] using hg
    exact .inl ⟨hnone, by
      simp [GOSTCitationFormatter.resolve, CitationModel.typeName, hnone]⟩

/-- A record that resolves successfully has a registered class name. -/
theorem lookup_isSome_of_resolve_ok {m : CitationModel} {f : GOSTFormatter}
    (h : GOSTCitationFormatter.resolve m = .ok f) :
    formatters_map.lookup m.typeName ≠ none := by
  intro hnone
  rw [GOSTCitationFormatter.resolve, hnone] at h
  cases h

/-- `__init__` on a batch of genuine records containing an unregistered kind
fails with an UnsupportedRecordKind error. -/
theorem init_unsupported : ∀ models : List CitationModel,
    (∀ m ∈ models, m.genuine = true) →
    (∃ m ∈ models, formatters_map.lookup m.typeName = none) →
    ∃ n, GOSTCitationFormatter.init models = .error (.unsupportedKind n)
  | [], _, hex => by simp at hex
  | m :: rest, hg, hex => by
    rcases resolve_of_genuine m (hg m (by simp)) with ⟨_, herr⟩ | ⟨f, hok⟩
    · exact ⟨m.typeName, by simp [GOSTCitationFormatter.init, herr]⟩
    · have hex' : ∃ m' ∈ rest, formatters_map.lookup m'.typeName = none := by
        rcases hex with ⟨m', hm', hnone⟩
        rcases List.mem_cons.mp hm' with rfl | hmem
        · exact absurd hnone (lookup_isSome_of_resolve_ok hok)
        · exact ⟨m', hmem, hnone⟩
      obtain ⟨n, hn⟩ := init_unsupported rest (fun x hx => hg x (by simp [hx])) hex'
      exact ⟨n, by simp [GOSTCitationFormatter.init, hok, hn, Except.map]⟩

/-- C2: For every input list containing at least one record whose kind has no
registered formatter, the whole batch formatting operation fails with an
UnsupportedRecordKind error and produces zero output strings — no partial list
of the other records' citations is ever returned. -/
theorem batch_unsupported_kind (models : List CitationModel)
    (hg : ∀ m ∈ models, m.genuine = true)
    (hex : ∃ m ∈ models, formatters_map.lookup m.typeName = none) :
    ∃ n, GOSTCitationFormatter.formatBatch models = .error (.unsupportedKind n) ∧
      ∀ out : List String, GOSTCitationFormatter.formatBatch models ≠ .ok out := by
  obtain ⟨n, hn⟩ := init_unsupported models hg hex
  have hb : GOSTCitationFormatter.formatBatch models = .error (.unsupportedKind n) := by
    simp [GOSTCitationFormatter.formatBatch, hn, Except.map]
  exact ⟨n, hb, fun out hout => by rw [hb] at hout; cases hout⟩

/-- Witness for C2: the example batch with a "MagazineModel" record fails. -/
theorem batch_unsupported_kind_witness :
    GOSTCitationFormatter.formatBatch exModelsBad =
      Except.error (BatchError.unsupportedKind "MagazineModel") := by
  obtain ⟨n, hn, -⟩ := batch_unsupported_kind exModelsBad (by decide) (by decide)
  exact rfl

/-- C7: For every list of validated records of registered kinds and every
permutation of that list, running the Citation List Formatter on the permuted
list yields the same output list of formatted strings as running it on the
original list. -/
theorem batch_permutation_invariant (models models' : List CitationModel)
    (hp : models.Perm models') (out out' : List String)
    (h : GOSTCitationFormatter.formatBatch models = .ok out)
    (h' : GOSTCitationFormatter.formatBatch models' = .ok out') :
    out = out' := by
  obtain ⟨items, hi, hout⟩ := formatBatch_ok_elim h
  obtain ⟨items', hi', hout'⟩ := formatBatch_ok_elim h'
  have hperm : out.Perm out' := by
    rw [hout, hout']
    exact ((format_map_key_perm hi).trans (hp.map modelKey)).trans
      (format_map_key_perm hi').symm
  haveI : IsAntisymm String (· ≤ ·) := ⟨fun _ _ => le_antisymm⟩
  have hs1 : out.Sorted (· ≤ ·) := by rw [hout]; exact format_map_key_sorted items
  have hs2 : out'.Sorted (· ≤ ·) := by rw [hout']; exact format_map_key_sorted items'
  exact List.eq_of_perm_of_sorted hperm hs1 hs2

/-- Witness for C7: swapping the two example records leaves the output
unchanged. -/
theorem batch_permutation_invariant_witness :
    (GOSTCitationFormatter.format [GOSTFormatter.book exBook,
        GOSTFormatter.journalArticle exJournal]).map GOSTFormatter.key =
      (GOSTCitationFormatter.format [GOSTFormatter.journalArticle exJournal,
        GOSTFormatter.book exBook]).map GOSTFormatter.key :=
  batch_permutation_invariant exModels exModelsPerm (by decide) _ _ rfl rfl

/-- Elementwise resolution gives resolution of every member. -/
theorem resolve_isOk_of_forall₂ : ∀ {models : List CitationModel} {items : List GOSTFormatter},
    List.Forall₂ (fun m f => GOSTCitationFormatter.resolve m = .ok f) models items →
    ∀ m ∈ models, ∃ f, GOSTCitationFormatter.resolve m = .ok f
  | _, _, List.Forall₂.nil, m, hm => by cases hm
  | _, _, List.Forall₂.cons hr hs, m, hm => by
    rcases List.mem_cons.mp hm with rfl | hmem
    · exact ⟨_, hr⟩
    · exact resolve_isOk_of_forall₂ hs m hmem

/-- Every record of a successfully initialized batch resolves. -/
theorem resolve_isOk_of_init_ok {models : List CitationModel} {items : List GOSTFormatter}
    (h : GOSTCitationFormatter.init models = .ok items) :
    ∀ m ∈ models, ∃ f, GOSTCitationFormatter.resolve m = .ok f :=
  resolve_isOk_of_forall₂ (init_ok_forall₂ h)

/-- C10: For every input list of validated records whose kinds all have
registered formatters, the output list has exactly the same length as the
input list, and its multiset of formatted strings equals the multiset obtained
by formatting each input record individually — the collect-and-sort step never
drops, duplicates, or alters any citation. -/
theorem batch_preserves_multiset (models : List CitationModel) (out : List String)
    (h : GOSTCitationFormatter.formatBatch models = .ok out) :
    out.length = models.length ∧
    List.Forall₂ (fun m s => (GOSTCitationFormatter.resolve m).map GOSTFormatter.key =
      Except.ok s) models (models.map modelKey) ∧
    out.Perm (models.map modelKey) := by
  obtain ⟨items, hi, hout⟩ := formatBatch_ok_elim h
  have hperm : out.Perm (models.map modelKey) := by
    rw [hout]; exact format_map_key_perm hi
  refine ⟨by rw [hperm.length_eq, List.length_map], ?_, hperm⟩
  rw [List.forall₂_map_right_iff, List.forall₂_same]
  intro m hm
  obtain ⟨f, hf⟩ := resolve_isOk_of_init_ok hi m hm
  simp [modelKey, hf, Except.map]

/-- Witness for C10 at the two-record example batch. -/
theorem batch_preserves_multiset_witness :
    ((GOSTCitationFormatter.format exItems).map GOSTFormatter.key).length =
      exModels.length :=
  (batch_preserves_multiset exModels
    ((GOSTCitationFormatter.format exItems).map GOSTFormatter.key) rfl).1

end Biblio
